import Mathlib

/-!
Shallow embedding of the BudgetBuddy server core (src/server/storage.ts and
src/shared/schema.ts) and proofs about it.

Modeling conventions:
* JavaScript numbers are modeled as `Option ℚ`, where `none` stands for NaN.
  Rational arithmetic idealizes IEEE-754 binary floating point (rounding drift
  is out of scope); no code path modeled here produces Infinity, since the one
  division in the code is guarded by a zero test.
* The relational store (Postgres via drizzle) is modeled as in-memory lists
  with serial id counters; `findFirst` is modeled as `List.find?` in insertion
  order, and `ORDER BY x ASC` as a stable sort on the column.  Decimal columns
  surface to JS as strings that the code immediately passes through `Number`,
  so they are modeled directly as JS numbers; nullable columns are wrapped in
  an additional `Option` whose `none` is SQL NULL.
* String primitives (`toLowerCase`, `trim`, split, `parseFloat`) are modeled
  over `List Char`; case mapping is the ASCII fragment of the JS behavior.
-/

/-- A JavaScript number: `none` models NaN, `some q` models the numeric value
`q` (rational idealization of the IEEE double). -/
abbrev JsNum := Option ℚ

/-- JS addition; NaN propagates. -/
def jadd : JsNum → JsNum → JsNum
  | some a, some b => some (a + b)
  | _, _ => none

/-- JS subtraction; NaN propagates. -/
def jsub : JsNum → JsNum → JsNum
  | some a, some b => some (a - b)
  | _, _ => none

/-- JS multiplication; NaN propagates. -/
def jmul : JsNum → JsNum → JsNum
  | some a, some b => some (a * b)
  | _, _ => none

/-- JS division.  Every division in the modeled code is guarded by a zero test
on the divisor, so the divisor-zero case (JS Infinity or NaN) is collapsed to
the non-numeric marker; it is unreachable through the modeled functions. -/
def jdiv : JsNum → JsNum → JsNum
  | some a, some b => if b = 0 then none else some (a / b)
  | _, _ => none

/-- JS `<` comparison as a Bool; any comparison with NaN is false. -/
def jlt : JsNum → JsNum → Bool
  | some a, some b => a < b
  | _, _ => false

/-- JS `Math.abs`; `Math.abs NaN = NaN`. -/
def jabs : JsNum → JsNum
  | some a => some |a|
  | none => none

/-- ASCII lower-casing of a string, the fragment of JS `toLowerCase` exercised
by this code. -/
def jsToLower (s : String) : String := String.mk (s.data.map Char.toLower)

/-- Whitespace trimming from both ends, modeling JS `String.prototype.trim`. -/
def jsTrim (s : String) : String :=
  String.mk (((s.data.dropWhile Char.isWhitespace).reverse.dropWhile Char.isWhitespace).reverse)

/-- Accumulate a decimal digit string into a natural number. -/
def natOfDigits (cs : List Char) : Nat :=
  cs.foldl (fun n c => n * 10 + (c.toNat - '0'.toNat)) 0

/-- Split a character list at every separator character, keeping empty pieces,
exactly like JS `split` on a single-character class such as `/[_\-\s]/`. -/
def splitEveryAux (p : Char → Bool) : List Char → List Char → List String
  | [], acc => [String.mk acc.reverse]
  | c :: rest, acc =>
    if p c then String.mk acc.reverse :: splitEveryAux p rest []
    else splitEveryAux p rest (c :: acc)

/-- Split a string at every separator character (empty pieces kept). -/
def splitEvery (p : Char → Bool) (s : String) : List String :=
  splitEveryAux p s.data []

/-- The sign/integer-digits/fraction-digits decomposition performed by JS
`parseFloat` on its longest valid prefix, restricted to the character alphabet
(digits, `.`, `-`, `+`) that survives the amount-stripping regex.  `none`
means no valid prefix, i.e. the parse yields NaN. -/
def parseFloatParts (cs : List Char) : Option (Bool × List Char × List Char) :=
  let signed : Bool × List Char :=
    match cs with
    | '-' :: rest => (true, rest)
    | '+' :: rest => (false, rest)
    | _ => (false, cs)
  let ip := signed.2.takeWhile Char.isDigit
  let rest1 := signed.2.dropWhile Char.isDigit
  let fp : List Char :=
    match rest1 with
    | '.' :: rest2 => rest2.takeWhile Char.isDigit
    | _ => []
  if ip.isEmpty && fp.isEmpty then none else some (signed.1, ip, fp)

/-- JS `parseFloat` on the stripped amount alphabet; `none` is NaN. -/
def parseFloatQ (s : String) : JsNum :=
  match parseFloatParts s.data with
  | none => none
  | some (neg, ip, fp) =>
    let mag : ℚ := (natOfDigits ip : ℚ) + (natOfDigits fp : ℚ) / (10 : ℚ) ^ fp.length
    some (if neg then -mag else mag)

/-- The amount-cleaning regex replace `/[^0-9.-]+/g → ''`: keep only digits,
the decimal point and the minus sign. -/
def stripAmountChars (s : String) : String :=
  String.mk (s.data.filter (fun c => c.isDigit || c == '.' || c == '-'))

/-- String-amount normalization used by the importer:
`parseFloat(raw.toString().replace(/[^0-9.-]+/g, ''))`. -/
def parseAmount (s : String) : JsNum := parseFloatQ (stripAmountChars s)

/-- Lower-case month names, as in `parseMonthString`. -/
def monthNames : List String :=
  ["january", "february", "march", "april", "may", "june",
   "july", "august", "september", "october", "november", "december"]

/-- Abbreviated lower-case month names, as in `parseMonthString`. -/
def monthNamesShort : List String :=
  ["jan", "feb", "mar", "apr", "may", "jun",
   "jul", "aug", "sep", "oct", "nov", "dec"]

/-- A parsed year/month pair, the return shape of `parseMonthString`. -/
structure YM where
  year : Int
  month : Int
deriving DecidableEq, Repr

/-- A token of one to four digits read as a year, modeling the date-fns `yyyy`
parser (which matches one to four digits and requires the token be consumed
exactly). -/
def parseYearTok (s : String) : Option Int :=
  if !s.data.isEmpty && s.data.length ≤ 4 && s.data.all Char.isDigit then
    some (natOfDigits s.data : Int)
  else none

/-- A token of one or two digits read as a month in 1..12, modeling the
date-fns `MM` parser (one or two digits, value validated to a real month). -/
def parseMonthTok2 (s : String) : Option Int :=
  if !s.data.isEmpty && s.data.length ≤ 2 && s.data.all Char.isDigit then
    let v := natOfDigits s.data
    if 1 ≤ v && v ≤ 12 then some (v : Int) else none
  else none

/-- Modeled from the external date-fns `parse(s, 'MMMM yyyy', ref)`: a full
(case-insensitive) month name, one space, then a year; anything left over
fails the parse.  The reference date does not leak into the result because the
date-fns month/year setters reset the smaller fields. -/
def parseMMMMyyyy (s : String) : Option YM :=
  match splitEvery (fun c => c == ' ') s with
  | [w, y] =>
    match monthNames.findIdx? (fun n => n == jsToLower w), parseYearTok y with
    | some idx, some yr => some ⟨yr, (idx : Int) + 1⟩
    | _, _ => none
  | _ => none

/-- Modeled from the external date-fns `parse(s, 'MMM yyyy', ref)`: an
abbreviated month name, one space, then a year. -/
def parseMMMyyyy (s : String) : Option YM :=
  match splitEvery (fun c => c == ' ') s with
  | [w, y] =>
    match monthNamesShort.findIdx? (fun n => n == jsToLower w), parseYearTok y with
    | some idx, some yr => some ⟨yr, (idx : Int) + 1⟩
    | _, _ => none
  | _ => none

/-- Modeled from the external date-fns `parse(s, 'yyyy-MM', ref)`. -/
def parseYyyyDashMM (s : String) : Option YM :=
  match splitEvery (fun c => c == '-') s with
  | [y, m] =>
    match parseYearTok y, parseMonthTok2 m with
    | some yr, some mo => some ⟨yr, mo⟩
    | _, _ => none
  | _ => none

/-- Modeled from the external date-fns `parse(s, 'MM/yyyy', ref)`. -/
def parseMMSlashYyyy (s : String) : Option YM :=
  match splitEvery (fun c => c == '/') s with
  | [m, y] =>
    match parseMonthTok2 m, parseYearTok y with
    | some mo, some yr => some ⟨yr, mo⟩
    | _, _ => none
  | _ => none

/-- The JS split of `monthStr` on the regex alternation of a whitespace run, a
slash, and a dash: a maximal whitespace run is one separator, while each `/`
and each `-` is its own separator.  The Bool flag
records whether the previous character was part of a whitespace run that
already emitted a piece. -/
def splitFallbackAux : List Char → List Char → Bool → List String
  | [], acc, _ => [String.mk acc.reverse]
  | c :: rest, acc, wsRun =>
    if c == '/' || c == '-' then
      String.mk acc.reverse :: splitFallbackAux rest [] false
    else if c.isWhitespace then
      if wsRun then splitFallbackAux rest acc true
      else String.mk acc.reverse :: splitFallbackAux rest [] true
    else splitFallbackAux rest (c :: acc) false

/-- String version of the fallback split in `parseMonthString`. -/
def splitFallback (s : String) : List String := splitFallbackAux s.data [] false

/-- The regex test `/^\d{4}$/` used to spot the year token. -/
def isFourDigitYear (s : String) : Bool :=
  s.data.length == 4 && s.data.all Char.isDigit

/-- The regex test `/^\d{1,2}$/` used on the month token. -/
def isOneOrTwoDigits (s : String) : Bool :=
  (s.data.length == 1 || s.data.length == 2) && s.data.all Char.isDigit

/-- The last-resort heuristic of `parseMonthString` (storage.ts lines
157-201): split on separators, require exactly two parts, find the 4-digit
year, and read the other part as a month number 1-12, a full month name, or an
abbreviated month name. -/
def parseMonthFallback (monthStr : String) : Option YM :=
  let parts := splitFallback monthStr
  if parts.length == 2 then
    match parts.findIdx? isFourDigitYear with
    | some yearIndex =>
      let yearPart := parts.getD yearIndex ""
      let monthPart := parts.getD (1 - yearIndex) ""
      let year : Int := (natOfDigits yearPart.data : Int)
      if isOneOrTwoDigits monthPart then
        let m := natOfDigits monthPart.data
        if 1 ≤ m && m ≤ 12 then some ⟨year, (m : Int)⟩ else none
      else
        match monthNames.findIdx? (fun n => n == jsToLower monthPart) with
        | some idx => some ⟨year, (idx : Int) + 1⟩
        | none =>
          match monthNamesShort.findIdx? (fun n => n == jsToLower monthPart) with
          | some idx => some ⟨year, (idx : Int) + 1⟩
          | none => none
    | none => none
  else none

/-- storage.ts `parseMonthString` (lines 101-204): try the formats
`MMMM yyyy`, `MMM yyyy`, `yyyy-MM`, `MM/yyyy` in order and fall back to the
split-on-separator heuristic; empty input and total failure give null. -/
def parseMonthString (monthStr : String) : Option YM :=
  if monthStr == "" then none
  else
    match parseMMMMyyyy monthStr with
    | some r => some r
    | none =>
      match parseMMMyyyy monthStr with
      | some r => some r
      | none =>
        match parseYyyyDashMM monthStr with
        | some r => some r
        | none =>
          match parseMMSlashYyyy monthStr with
          | some r => some r
          | none => parseMonthFallback monthStr

/-- A calendar date as produced by the flexible date parser.  The claims only
carry this value around opaquely, so only year/month/day are modeled. -/
structure DateVal where
  year : Int
  month : Int
  day : Int
deriving DecidableEq, Repr

/-- Build a date after the basic range validation the external parser does;
per-month day counts of the external library are not modeled (no claim
depends on which strings parse as dates). -/
def mkDateVal (y m d : Nat) : Option DateVal :=
  if 1 ≤ m && m ≤ 12 && 1 ≤ d && d ≤ 31 then some ⟨(y : Int), (m : Int), (d : Int)⟩
  else none

/-- A numeric token of at most `maxLen` digits. -/
def numTok (maxLen : Nat) (s : String) : Option Nat :=
  if !s.data.isEmpty && s.data.length ≤ maxLen && s.data.all Char.isDigit then
    some (natOfDigits s.data)
  else none

/-- Modeled date-fns `yyyy-MM-dd` attempt. -/
def tryYyyyMmDd (s : String) : Option DateVal :=
  match splitEvery (fun c => c == '-') s with
  | [y, m, d] =>
    match numTok 4 y, numTok 2 m, numTok 2 d with
    | some yv, some mv, some dv => mkDateVal yv mv dv
    | _, _, _ => none
  | _ => none

/-- Modeled date-fns `MM/dd/yyyy` (and numerically identical `M/d/yyyy`)
attempt. -/
def tryMmDdYyyy (s : String) : Option DateVal :=
  match splitEvery (fun c => c == '/') s with
  | [m, d, y] =>
    match numTok 2 m, numTok 2 d, numTok 4 y with
    | some mv, some dv, some yv => mkDateVal yv mv dv
    | _, _, _ => none
  | _ => none

/-- Modeled date-fns `dd/MM/yyyy` attempt, reached when the US order fails. -/
def tryDdMmYyyy (s : String) : Option DateVal :=
  match splitEvery (fun c => c == '/') s with
  | [d, m, y] =>
    match numTok 2 d, numTok 2 m, numTok 4 y with
    | some dv, some mv, some yv => mkDateVal yv mv dv
    | _, _, _ => none
  | _ => none

/-- Modeled date-fns `MMMM d, yyyy` / `MMM d, yyyy` attempt. -/
def tryMonthNameDate (names : List String) (s : String) : Option DateVal :=
  match splitEvery (fun c => c == ' ') s with
  | [mn, dcomma, y] =>
    match names.findIdx? (fun n => n == jsToLower mn) with
    | some idx =>
      match dcomma.data.reverse with
      | ',' :: revDay =>
        match numTok 2 (String.mk revDay.reverse), numTok 4 y with
        | some dv, some yv => mkDateVal yv (idx + 1) dv
        | _, _ => none
      | _ => none
    | none => none
  | _ => none

/-- storage.ts `parseFlexibleDate` (lines 64-95): empty input gives null, then
a fixed list of date-fns formats is tried first-match-wins.  The native `new
Date(s)` last resort of the source accepts an engine-defined superset of
formats and is modeled as accepting nothing; no claim inspects which strings
parse as dates, only that the result is carried opaquely or null. -/
def parseFlexibleDate (dateStr : String) : Option DateVal :=
  if dateStr == "" then none
  else
    (tryYyyyMmDd dateStr).or ((tryMmDdYyyy dateStr).or ((tryDdMmYyyy dateStr).or
      ((tryMonthNameDate monthNames dateStr).or (tryMonthNameDate monthNamesShort dateStr))))

/-- schema.ts `categories` row. -/
structure Category where
  id : Nat
  name : String
  displayName : String
  type : String
  sortOrder : Int
deriving DecidableEq, Repr

/-- schema.ts `budget_months` row (`created_at` is not modeled; nothing reads
it). -/
structure BudgetMonth where
  id : Nat
  userId : Option Nat
  year : Int
  month : Int
  isActive : Bool
deriving DecidableEq, Repr

/-- schema.ts `budget_items` row.  `expectedAmount` is a NOT NULL decimal
column surfaced to JS through `Number(...)`, hence a `JsNum`; `actualAmount`
and `isPaid` are nullable, hence the extra `Option` for SQL NULL. -/
structure BudgetItem where
  id : Nat
  budgetMonthId : Nat
  categoryId : Nat
  name : String
  expectedAmount : JsNum
  actualAmount : Option JsNum
  dueDate : Option DateVal
  isPaid : Option Bool
deriving DecidableEq, Repr

/-- The relational store: the three tables touched by the budget core plus
their serial-id counters. -/
structure Store where
  categories : List Category
  budgetMonths : List BudgetMonth
  budgetItems : List BudgetItem
  nextCategoryId : Nat
  nextMonthId : Nat
  nextItemId : Nat
deriving DecidableEq, Repr

/-- A store with empty tables. -/
def emptyStore : Store := ⟨[], [], [], 1, 1, 1⟩

/-- storage.ts `calculateVariance` (lines 49-51). -/
def calculateVariance (actual expected : JsNum) : JsNum := jsub actual expected

/-- storage.ts `calculateVariancePercentage` (lines 56-59). -/
def calculateVariancePercentage (variance expected : JsNum) : JsNum :=
  if expected == some 0 then some 0
  else jmul (jdiv variance expected) (some 100)

/-- Capitalized month names used by `formatMonthYear`. -/
def monthNamesCap : List String :=
  ["January", "February", "March", "April", "May", "June",
   "July", "August", "September", "October", "November", "December"]

/-- storage.ts `formatMonthYear` (lines 41-44): format the first day of the
month as `MMMM yyyy`, with the JS `Date` month-overflow normalization. -/
def formatMonthYear (year month : Int) : String :=
  let idx := (month - 1).emod 12
  let y := year + (month - 1).fdiv 12
  monthNamesCap.getD idx.toNat "" ++ " " ++ toString y

/-- The WHERE clause of the month lookup in `getOrCreateMonth` (storage.ts
lines 362-373): year and month must match, plus the user condition — `eq
(userId)` when a user id was passed and is truthy, `isNull` otherwise.  A JS
`userId` of 0 is falsy and falls into the `isNull` branch. -/
def monthMatches (year month : Int) (userId : Option Nat) (b : BudgetMonth) : Bool :=
  b.year == year && b.month == month &&
    (match userId with
     | some u => if u == 0 then b.userId == none else b.userId == some u
     | none => b.userId == none)

/-- Year of the chronologically preceding month (storage.ts lines 500-502). -/
def prevYearOf (year month : Int) : Int := if month == 1 then year - 1 else year

/-- Month of the chronologically preceding month (storage.ts lines 500-502). -/
def prevMonthOf (month : Int) : Int := if month == 1 then 12 else month - 1

/-- The WHERE clause of the preceding-month lookup in `createMonth`
(storage.ts lines 504-509): it filters on year and month only — no user
condition appears. -/
def prevMonthMatches (year month : Int) (b : BudgetMonth) : Bool :=
  b.year == prevYearOf year month && b.month == prevMonthOf month

/-- One carried-forward item (storage.ts lines 519-527): same category, name,
expected amount and due date; actual amount reset to the decimal string "0";
paid flag reset to false.  `baseId` plus the position gives the serial id the
store assigns on the batch insert. -/
def carryItem (newMonthId baseId : Nat) (p : Nat × BudgetItem) : BudgetItem :=
  { id := baseId + p.1
    budgetMonthId := newMonthId
    categoryId := p.2.categoryId
    name := p.2.name
    expectedAmount := p.2.expectedAmount
    actualAmount := some (some 0)
    dueDate := p.2.dueDate
    isPaid := some false }

/-- storage.ts `createMonth` (lines 488-534): insert the new month row, look
up the chronologically preceding month by year and month, and if one exists
copy its items forward in one batch.  The source's `prevItems.length > 0`
guard is omitted: inserting an empty batch is a no-op either way. -/
def createMonth (st : Store) (year month : Int) (userId : Option Nat) :
    Store × BudgetMonth :=
  let newMonth : BudgetMonth :=
    { id := st.nextMonthId, userId := userId, year := year, month := month, isActive := true }
  let st1 : Store :=
    { st with budgetMonths := st.budgetMonths ++ [newMonth], nextMonthId := st.nextMonthId + 1 }
  match st1.budgetMonths.find? (prevMonthMatches year month) with
  | some previousMonth =>
    let prevItems := st1.budgetItems.filter (fun i => i.budgetMonthId == previousMonth.id)
    let newItems := prevItems.enum.map (carryItem newMonth.id st1.nextItemId)
    ({ st1 with budgetItems := st1.budgetItems ++ newItems,
                nextItemId := st1.nextItemId + newItems.length }, newMonth)
  | none => (st1, newMonth)

/-- The find-or-create half of storage.ts `getOrCreateMonth` (lines 360-383).
The source calls `this.createMonth(year, month)` without forwarding `userId`,
so a month created on behalf of a user is inserted with a NULL owner; that
behavior is preserved here. -/
def resolveMonthRow (st : Store) (year month : Int) (userId : Option Nat) :
    Store × BudgetMonth :=
  match st.budgetMonths.find? (monthMatches year month userId) with
  | some bm => (st, bm)
  | none => createMonth st year month none

/-- An item of the month view (the object literals of storage.ts lines
401-410 and 424-433). -/
structure ItemView where
  id : Nat
  name : String
  category : String
  expectedAmount : JsNum
  actualAmount : JsNum
  dueDate : Option DateVal
  isPaid : Bool
  variance : JsNum
deriving DecidableEq, Repr

/-- Per-category totals of the month view (storage.ts lines 444-448). -/
structure CatTotals where
  expectedTotal : JsNum
  actualTotal : JsNum
  variance : JsNum
deriving DecidableEq, Repr

/-- One expense-category block of the month view (storage.ts lines 440-449). -/
structure ExpenseCategoryView where
  category : String
  displayName : String
  items : List ItemView
  totals : CatTotals
deriving DecidableEq, Repr

/-- The month-level totals of the month view (storage.ts lines 468-481). -/
structure MonthTotals where
  expectedTotalRevenue : JsNum
  actualTotalRevenue : JsNum
  expectedTotalExpenses : JsNum
  actualTotalExpenses : JsNum
  expectedNetIncome : JsNum
  actualNetIncome : JsNum
  revenueVariance : JsNum
  expensesVariance : JsNum
  netIncomeVariance : JsNum
  revenueVariancePercentage : JsNum
  expensesVariancePercentage : JsNum
  netIncomeVariancePercentage : JsNum
deriving DecidableEq, Repr

/-- The `MonthData` shape returned by `getOrCreateMonth` (storage.ts lines
18-36). -/
structure MonthData where
  month : String
  revenueItems : List ItemView
  expenseCategories : List ExpenseCategoryView
  totals : MonthTotals
deriving DecidableEq, Repr

/-- The category row joined onto an item by the drizzle relational query
(`with: { category: true }`). -/
def itemCategory (st : Store) (i : BudgetItem) : Option Category :=
  st.categories.find? (fun c => c.id == i.categoryId)

/-- `db.query.budgetItems.findMany({ where: eq(budgetItems.budgetMonthId,
budgetMonth.id) })`: all items of one month. -/
def monthItemsOf (st : Store) (budgetMonth : BudgetMonth) : List BudgetItem :=
  st.budgetItems.filter (fun i => i.budgetMonthId == budgetMonth.id)

/-- `Number(item.actualAmount || 0)`: SQL NULL falls to 0, a stored value is
passed through `Number`. -/
def itemActualAmount (i : BudgetItem) : JsNum := i.actualAmount.getD (some 0)

/-- The item projection of the month view (storage.ts lines 401-409 for
revenue with the literal label "revenue", lines 424-432 per expense category
with the category name as label). -/
def mkItemView (categoryLabel : String) (item : BudgetItem) : ItemView :=
  { id := item.id
    name := item.name
    category := categoryLabel
    expectedAmount := item.expectedAmount
    actualAmount := itemActualAmount item
    dueDate := item.dueDate
    isPaid := item.isPaid.getD false
    variance := calculateVariance (itemActualAmount item) item.expectedAmount }

/-- `reduce((total, item) => total + item.expectedAmount, 0)`. -/
def sumExpected (items : List ItemView) : JsNum :=
  items.foldl (fun t it => jadd t it.expectedAmount) (some 0)

/-- `reduce((total, item) => total + item.actualAmount, 0)`. -/
def sumActual (items : List ItemView) : JsNum :=
  items.foldl (fun t it => jadd t it.actualAmount) (some 0)

/-- `db.query.categories.findMany({ orderBy: asc(categories.sortOrder) })`,
modeled as a stable sort on `sortOrder` (a deterministic refinement of the
unspecified SQL tie order). -/
def sortedCategories (st : Store) : List Category :=
  st.categories.insertionSort (fun a b => a.sortOrder ≤ b.sortOrder)

/-- One expense-category block (storage.ts lines 421-450): the month's items
of that category, and totals summed over them. -/
def expenseEntry (allItems : List BudgetItem) (category : Category) :
    ExpenseCategoryView :=
  let categoryItems :=
    (allItems.filter (fun i => i.categoryId == category.id)).map (mkItemView category.name)
  let expectedTotal := sumExpected categoryItems
  let actualTotal := sumActual categoryItems
  { category := category.name
    displayName := category.displayName
    items := categoryItems
    totals :=
      { expectedTotal := expectedTotal
        actualTotal := actualTotal
        variance := calculateVariance actualTotal expectedTotal } }

/-- The aggregation half of storage.ts `getOrCreateMonth` (lines 385-482):
load the categories ordered by `sortOrder`, load the month's items with their
categories joined, split revenue items into a flat list, group expense items
by category, and compute the totals, variances and variance percentages. -/
def computeMonthView (st : Store) (year month : Int) (budgetMonth : BudgetMonth) :
    MonthData :=
  let allCategories := sortedCategories st
  let allItems := monthItemsOf st budgetMonth
  let revenueItems :=
    (allItems.filter (fun i => (itemCategory st i).any (fun c => c.type == "revenue"))).map
      (mkItemView "revenue")
  let expectedTotalRevenue := sumExpected revenueItems
  let actualTotalRevenue := sumActual revenueItems
  let revenueVariance := calculateVariance actualTotalRevenue expectedTotalRevenue
  let revenueVariancePercentage := calculateVariancePercentage revenueVariance expectedTotalRevenue
  let expenseCategories :=
    (allCategories.filter (fun c => c.type == "expense")).map (expenseEntry allItems)
  let expectedTotalExpenses :=
    expenseCategories.foldl (fun t c => jadd t c.totals.expectedTotal) (some 0)
  let actualTotalExpenses :=
    expenseCategories.foldl (fun t c => jadd t c.totals.actualTotal) (some 0)
  let expensesVariance := calculateVariance actualTotalExpenses expectedTotalExpenses
  let expensesVariancePercentage := calculateVariancePercentage expensesVariance expectedTotalExpenses
  let expectedNetIncome := jsub expectedTotalRevenue expectedTotalExpenses
  let actualNetIncome := jsub actualTotalRevenue actualTotalExpenses
  let netIncomeVariance := calculateVariance actualNetIncome expectedNetIncome
  let netIncomeVariancePercentage := calculateVariancePercentage netIncomeVariance expectedNetIncome
  { month := formatMonthYear year month
    revenueItems := revenueItems
    expenseCategories := expenseCategories
    totals :=
      { expectedTotalRevenue := expectedTotalRevenue
        actualTotalRevenue := actualTotalRevenue
        expectedTotalExpenses := expectedTotalExpenses
        actualTotalExpenses := actualTotalExpenses
        expectedNetIncome := expectedNetIncome
        actualNetIncome := actualNetIncome
        revenueVariance := revenueVariance
        expensesVariance := expensesVariance
        netIncomeVariance := netIncomeVariance
        revenueVariancePercentage := revenueVariancePercentage
        expensesVariancePercentage := expensesVariancePercentage
        netIncomeVariancePercentage := netIncomeVariancePercentage } }

/-- storage.ts `getOrCreateMonth` (lines 360-483): resolve (or lazily create)
the month row, then compute the month view over the resulting store. -/
def getOrCreateMonth (st : Store) (year month : Int) (userId : Option Nat) :
    Store × MonthData :=
  let r := resolveMonthRow st year month userId
  (r.1, computeMonthView r.1 year month r.2)

/-- The store after `getOrCreateMonth` has resolved the month row. -/
def resolvedStoreOf (st : Store) (year month : Int) (userId : Option Nat) : Store :=
  (resolveMonthRow st year month userId).1

/-- The `BudgetMonth` row `getOrCreateMonth` resolves to. -/
def resolvedRowOf (st : Store) (year month : Int) (userId : Option Nat) : BudgetMonth :=
  (resolveMonthRow st year month userId).2

/-- The `MonthData` view `getOrCreateMonth` returns. -/
def monthViewOf (st : Store) (year month : Int) (userId : Option Nat) : MonthData :=
  (getOrCreateMonth st year month userId).2

/-- A JavaScript value appearing in a loosely-typed import record field:
null, a number (possibly NaN), a string, or a boolean.  (`undefined` is
modeled by wrapping fields in `Option`.) -/
inductive JsVal where
  | nullv : JsVal
  | num : JsNum → JsVal
  | str : String → JsVal
  | boolv : Bool → JsVal
deriving DecidableEq, Repr

/-- JS truthiness of a `JsVal`: null, NaN, 0, the empty string and false are
falsy. -/
def jsTruthy : JsVal → Bool
  | .nullv => false
  | .num a => match a with
    | some v => v != 0
    | none => false
  | .str s => s != ""
  | .boolv b => b

/-- One record of an `importBudgetData` batch, with the fields the importer
reads.  Absent fields (`undefined`) are `none`.  The fields the code only
ever passes through `toString` after a truthiness guard are modeled as
strings; the amount and paid-flag fields, whose handling branches on the JS
type, carry a full `JsVal`. -/
structure ImportRecord where
  month : Option String := none
  category : Option String := none
  type : Option String := none
  name : Option String := none
  description : Option String := none
  expectedAmount : Option JsVal := none
  budgetAmount : Option JsVal := none
  amount : Option JsVal := none
  actualAmount : Option JsVal := none
  dueDate : Option String := none
  isPaid : Option JsVal := none
  paid : Option JsVal := none
  status : Option String := none
deriving DecidableEq, Repr

/-- The import result accumulator (storage.ts lines 669-675). -/
structure ImportResults where
  success : Nat
  failed : Nat
  categoryCreated : Nat
  monthsCreated : Nat
  errors : List String
deriving DecidableEq, Repr

/-- The importer's in-request state: the store plus the two in-memory caches
the loop mutates — the `allCategories` snapshot (extended on every category
insert) and the `monthCache` record keyed by "year-month". -/
structure ImpState where
  st : Store
  cats : List Category
  cache : List (String × BudgetMonth)
deriving Repr

/-- The effective target month of one record (storage.ts lines 679-690): a
truthy `month` field that parses overrides the batch default. -/
def importTarget (year month : Int) (r : ImportRecord) : Int × Int :=
  match r.month with
  | some s =>
    if s == "" then (year, month)
    else
      match parseMonthString s with
      | some ym => (ym.year, ym.month)
      | none => (year, month)
  | none => (year, month)

/-- The month-cache key `"targetYear-targetMonth"` (storage.ts line 693). -/
def monthKeyOf (targetYear targetMonth : Int) : String :=
  toString targetYear ++ "-" ++ toString targetMonth

/-- Month resolution of the importer (storage.ts lines 692-721): consult the
in-request cache, then the store (by year and month only), and otherwise
insert a bare month row (no carry-forward, NULL owner); the Bool reports
whether a month was created. -/
def resolveImportMonth (st : Store) (cache : List (String × BudgetMonth))
    (targetYear targetMonth : Int) :
    Store × List (String × BudgetMonth) × Bool × BudgetMonth :=
  let key := monthKeyOf targetYear targetMonth
  match cache.find? (fun p => p.1 == key) with
  | some p => (st, cache, false, p.2)
  | none =>
    match st.budgetMonths.find? (fun b => b.year == targetYear && b.month == targetMonth) with
    | some bm => (st, cache ++ [(key, bm)], false, bm)
    | none =>
      let newMonth : BudgetMonth :=
        { id := st.nextMonthId, userId := none, year := targetYear, month := targetMonth,
          isActive := true }
      ({ st with budgetMonths := st.budgetMonths ++ [newMonth],
                 nextMonthId := st.nextMonthId + 1 },
       cache ++ [(key, newMonth)], true, newMonth)

/-- The record's category type, `item.type || 'expense'` (storage.ts line
725). -/
def effectiveCategoryType (r : ImportRecord) : String :=
  match r.type with
  | some s => if s == "" then "expense" else s
  | none => "expense"

/-- The record's category key (storage.ts lines 724-733):
`(item.category || '').toString().toLowerCase().trim()`, defaulted to
"income" / "miscellaneous" by type when empty. -/
def effectiveCategoryName (r : ImportRecord) : String :=
  let categoryName := jsTrim (jsToLower (r.category.getD ""))
  if categoryName == "" then
    if effectiveCategoryType r == "revenue" then "income" else "miscellaneous"
  else categoryName

/-- `part.charAt(0).toUpperCase() + part.slice(1)`: capitalize the first
character, keep the rest as is; on the empty piece both halves are empty. -/
def titleCasePart (p : String) : String :=
  match p.data with
  | [] => ""
  | c :: rest => String.mk (c.toUpper :: rest)

/-- The displayName derivation for auto-created categories (storage.ts lines
742-745): split the raw name on underscore, dash and whitespace, title-case
each piece, join with spaces. -/
def deriveDisplayName (categoryName : String) : String :=
  String.intercalate " "
    ((splitEvery (fun c => c == '_' || c == '-' || c.isWhitespace) categoryName).map titleCasePart)

/-- The case-insensitive exact (name, type) match of the importer's category
lookup (storage.ts lines 735-738). -/
def categoryMatches (categoryName categoryType : String) (c : Category) : Bool :=
  jsToLower c.name == categoryName && c.type == categoryType

/-- The category the importer creates on a lookup miss (storage.ts lines
741-758): the lowercased name, the derived displayName, the record's type,
and sortOrder 0 for revenue or 100 for expense. -/
def newCategoryOf (st : Store) (r : ImportRecord) : Category :=
  { id := st.nextCategoryId
    name := effectiveCategoryName r
    displayName := deriveDisplayName (effectiveCategoryName r)
    type := effectiveCategoryType r
    sortOrder := if effectiveCategoryType r == "revenue" then 0 else 100 }

/-- Category resolution of the importer (storage.ts lines 723-759): match
case-insensitively on (name, type) against the in-memory candidate list; on a
miss create the category, persist it and push it onto the candidate list; the
Bool reports whether a category was created. -/
def resolveImportCategory (st : Store) (cats : List Category) (r : ImportRecord) :
    Store × List Category × Bool × Category :=
  match cats.find? (categoryMatches (effectiveCategoryName r) (effectiveCategoryType r)) with
  | some c => (st, cats, false, c)
  | none =>
    ({ st with categories := st.categories ++ [newCategoryOf st r],
               nextCategoryId := st.nextCategoryId + 1 },
     cats ++ [newCategoryOf st r], true, newCategoryOf st r)

/-- Coerce one amount field to a number (storage.ts lines 765-783): a JS
number is used as is; anything else is stringified and run through
`parseFloat` on the stripped text.  `null.toString()` throws a TypeError —
the one per-record exception reachable in this model — and a boolean
stringifies to text that strips to nothing, i.e. NaN. -/
def amountFromVal : JsVal → Except String JsNum
  | .num a => Except.ok a
  | .nullv => Except.error "TypeError: Cannot read properties of null"
  | .str s => Except.ok (parseAmount s)
  | .boolv b => Except.ok (parseAmount (if b then "true" else "false"))

/-- The expected amount of a record (storage.ts lines 762-777): first present
field among `expectedAmount`, `budgetAmount`, `amount` wins; all absent gives
0. -/
def importExpectedAmount (r : ImportRecord) : Except String JsNum :=
  match r.expectedAmount with
  | some v => amountFromVal v
  | none =>
    match r.budgetAmount with
    | some v => amountFromVal v
    | none =>
      match r.amount with
      | some v => amountFromVal v
      | none => Except.ok (some 0)

/-- The actual amount of a record (storage.ts lines 779-783): `actualAmount`
only; absent gives 0. -/
def importActualAmount (r : ImportRecord) : Except String JsNum :=
  match r.actualAmount with
  | some v => amountFromVal v
  | none => Except.ok (some 0)

/-- The expense-negation step (storage.ts lines 785-791): an expense-typed
amount strictly below zero is replaced by its absolute value; any other
combination (including NaN, for which the comparison is false) passes
through. -/
def normalizeExpenseAmount (categoryType : String) (a : JsNum) : JsNum :=
  if categoryType == "expense" && jlt a (some 0) then jabs a else a

/-- The due date of a record (storage.ts lines 793-798): a truthy `dueDate`
field run through `parseFlexibleDate`, null otherwise. -/
def importDueDate (r : ImportRecord) : Option DateVal :=
  match r.dueDate with
  | some s => if s == "" then none else parseFlexibleDate s
  | none => none

/-- The paid flag of a record (storage.ts lines 800-808): `isPaid` if
present, else `paid`, else a truthy `status` equal (case-insensitively) to
"paid", "complete" or "completed". -/
def importIsPaid (r : ImportRecord) : Bool :=
  match r.isPaid with
  | some v => jsTruthy v
  | none =>
    match r.paid with
    | some v => jsTruthy v
    | none =>
      match r.status with
      | some s =>
        s != "" &&
          (jsToLower s == "paid" || jsToLower s == "complete" || jsToLower s == "completed")
      | none => false

/-- The stored name of an imported item,
`item.name || item.description || 'Imported Item'` (storage.ts line 815). -/
def importItemName (r : ImportRecord) : String :=
  match r.name with
  | some s =>
    if s == "" then
      match r.description with
      | some d => if d == "" then "Imported Item" else d
      | none => "Imported Item"
    else s
  | none =>
    match r.description with
    | some d => if d == "" then "Imported Item" else d
    | none => "Imported Item"

/-- Process one record of the batch (the body of the for-loop in storage.ts
lines 677-827): resolve the target month, resolve or create the category,
then coerce the amounts — the step that can throw.  On a throw the month and
category side effects and the created-counters stand, but no item row is
inserted; otherwise the item row is inserted.  Returns the updated state, the
months-created and categories-created flags, and the error if one was
thrown. -/
def processImportRecord (year month : Int) (s : ImpState) (r : ImportRecord) :
    ImpState × Bool × Bool × Option String :=
  let target := importTarget year month r
  let m1 := resolveImportMonth s.st s.cache target.1 target.2
  let st1 := m1.1
  let cache1 := m1.2.1
  let monthCreated := m1.2.2.1
  let bm := m1.2.2.2
  let c1 := resolveImportCategory st1 s.cats r
  let st2 := c1.1
  let cats2 := c1.2.1
  let catCreated := c1.2.2.1
  let category := c1.2.2.2
  match importExpectedAmount r with
  | Except.error e => (⟨st2, cats2, cache1⟩, monthCreated, catCreated, some e)
  | Except.ok ea0 =>
    match importActualAmount r with
    | Except.error e => (⟨st2, cats2, cache1⟩, monthCreated, catCreated, some e)
    | Except.ok aa0 =>
      let categoryType := effectiveCategoryType r
      let expectedAmount := normalizeExpenseAmount categoryType ea0
      let actualAmount := normalizeExpenseAmount categoryType aa0
      let item : BudgetItem :=
        { id := st2.nextItemId
          budgetMonthId := bm.id
          categoryId := category.id
          name := importItemName r
          expectedAmount := expectedAmount
          actualAmount := some actualAmount
          dueDate := importDueDate r
          isPaid := some (importIsPaid r) }
      (⟨{ st2 with budgetItems := st2.budgetItems ++ [item],
                   nextItemId := st2.nextItemId + 1 }, cats2, cache1⟩,
       monthCreated, catCreated, none)

/-- The error message pushed for a failed record (storage.ts line 825). -/
def importErrorMsg (r : ImportRecord) (e : String) : String :=
  "Error importing item " ++
    (match r.name with
     | some s => if s == "" then "Unknown" else s
     | none => "Unknown") ++ ": " ++ e

/-- Fold one record into the batch accumulator: bump `success` or `failed`
(appending the error message), and add the created-counters either way. -/
def importStep (year month : Int) (acc : ImpState × ImportResults) (r : ImportRecord) :
    ImpState × ImportResults :=
  let p := processImportRecord year month acc.1 r
  let res := acc.2
  let res1 : ImportResults :=
    { res with
        monthsCreated := res.monthsCreated + (if p.2.1 then 1 else 0)
        categoryCreated := res.categoryCreated + (if p.2.2.1 then 1 else 0) }
  match p.2.2.2 with
  | none => (p.1, { res1 with success := res1.success + 1 })
  | some e => (p.1, { res1 with failed := res1.failed + 1,
                                errors := res1.errors ++ [importErrorMsg r e] })

/-- storage.ts `importBudgetData` (lines 661-830): snapshot the categories,
then process the records in order with per-record try/continue, returning the
updated store and the batch report. -/
def importBudgetData (st : Store) (year month : Int) (data : List ImportRecord) :
    Store × ImportResults :=
  let allCategories := st.categories
  let out := data.foldl (importStep year month) (⟨st, allCategories, []⟩, ⟨0, 0, 0, 0, []⟩)
  (out.1.st, out.2)

/-- Evaluation helper: `parseAmount` on the expense example of the spec. -/
theorem parseAmount_dollar_comma : parseAmount "$1,200.50" = some (2401 / 2) := by
  have hp : parseFloatParts (stripAmountChars "$1,200.50").data =
      some (false, ['1', '2', '0', '0'], ['5', '0']) := by decide
  have h1 : natOfDigits ['1', '2', '0', '0'] = 1200 := by decide
  have h2 : natOfDigits ['5', '0'] = 50 := by decide
  simp only [parseAmount, parseFloatQ, hp, h1, h2]
  norm_num

/-- Evaluation helper: `parseAmount` on the signed example of the spec. -/
theorem parseAmount_minus50 : parseAmount "-50" = some (-50) := by
  have hp : parseFloatParts (stripAmountChars "-50").data =
      some (true, ['5', '0'], []) := by decide
  have h1 : natOfDigits ['5', '0'] = 50 := by decide
  have h2 : natOfDigits ([] : List Char) = 0 := by decide
  simp only [parseAmount, parseFloatQ, hp, h1, h2]
  norm_num

/-- C1: the claim that `getOrCreateMonth` is an idempotent get-or-create
fails when an owner id is passed: the source forwards `userId` into the month
lookup but calls `this.createMonth(year, month)` without it, so on an empty
store two sequential calls of `getOrCreateMonth(2024, 5, userId := 1)` create
two distinct BudgetMonth rows, both with a NULL owner — a duplicate for the
same (year, month, owner) triple, and the second call does not resolve to the
row the first call created. -/
theorem c1_duplicate_months_for_owner :
    (resolveMonthRow (resolveMonthRow emptyStore 2024 5 (some 1)).1 2024 5 (some 1)).2.id ≠
      (resolveMonthRow emptyStore 2024 5 (some 1)).2.id ∧
    ((resolveMonthRow (resolveMonthRow emptyStore 2024 5 (some 1)).1 2024 5
        (some 1)).1.budgetMonths.filter
      (fun b => b.year == 2024 && b.month == 5 && b.userId == none)).length = 2 ∧
    (resolveMonthRow emptyStore 2024 5 (some 1)).2.userId = none := by
  decide

/-- C4: the variance percentage computed by `calculateVariancePercentage` is
(variance / expected) × 100 when the expected total is nonzero, and 0 when
the expected total is 0, whatever the variance. -/
theorem c4_variance_percentage (v e : ℚ) :
    (e ≠ 0 → calculateVariancePercentage (some v) (some e) = some (v / e * 100)) ∧
    (e = 0 → calculateVariancePercentage (some v) (some e) = some 0) := by
  constructor
  · intro he
    simp [calculateVariancePercentage, jdiv, jmul, he]
  · intro he
    subst he
    simp [calculateVariancePercentage]

/-- Witness for C4 at v = 50, e = 200 and at v = 7, e = 0. -/
theorem c4_variance_percentage_witness :
    calculateVariancePercentage (some 50) (some 200) = some (50 / 200 * 100) ∧
    calculateVariancePercentage (some 7) (some 0) = some 0 :=
  ⟨(c4_variance_percentage 50 200).1 (by norm_num), (c4_variance_percentage 7 0).2 rfl⟩

/-- C5 counterexample: the claim says an unparseable amount string normalizes
to 0, but the importer's pipeline on the expense amount "abc" yields NaN
(the stripped text is empty, `parseFloat` gives NaN, and the expense-negation
step passes NaN through), not 0. -/
theorem c5_unparseable_is_nan_not_zero :
    normalizeExpenseAmount "expense" (parseAmount "abc") ≠ some 0 ∧
    normalizeExpenseAmount "expense" (parseAmount "abc") = none := by
  decide

/-- C5 as amended: a string amount is normalized by stripping every character
other than digits, minus sign and decimal point and parsing the result with
`parseFloat`; an unparseable amount yields NaN (carried through, with no
error raised) rather than 0, while a missing amount field defaults to 0; for
expense-type records a negative amount is replaced by its absolute value and
revenue amounts keep their sign. -/
theorem c5_amount_normalization (q : ℚ) (a : JsNum) (s : String) (r : ImportRecord) :
    (r.expectedAmount = some (JsVal.str s) →
        importExpectedAmount r = Except.ok (parseAmount s)) ∧
    (r.expectedAmount = none → r.budgetAmount = none → r.amount = none →
        importExpectedAmount r = Except.ok (some 0)) ∧
    (q < 0 → normalizeExpenseAmount "expense" (some q) = some (-q)) ∧
    (0 ≤ q → normalizeExpenseAmount "expense" (some q) = some q) ∧
    normalizeExpenseAmount "revenue" a = a ∧
    normalizeExpenseAmount "expense" none = none ∧
    normalizeExpenseAmount "expense" (parseAmount "$1,200.50") = some (2401 / 2) ∧
    normalizeExpenseAmount "expense" (parseAmount "-50") = some 50 ∧
    normalizeExpenseAmount "revenue" (parseAmount "-50") = some (-50) ∧
    parseAmount "abc" = none := by
  refine ⟨?_, ?_, ?_, ?_, rfl, rfl, ?_, ?_, ?_, by decide⟩
  · intro h
    simp [importExpectedAmount, h, amountFromVal]
  · intro h1 h2 h3
    simp [importExpectedAmount, h1, h2, h3]
  · intro hq
    simp [normalizeExpenseAmount, jlt, jabs, hq, abs_of_neg hq]
  · intro hq
    simp [normalizeExpenseAmount, jlt, jabs, not_lt.mpr hq]
  · rw [parseAmount_dollar_comma]
    norm_num [normalizeExpenseAmount, jlt, jabs]
  · rw [parseAmount_minus50]
    norm_num [normalizeExpenseAmount, jlt, jabs]
  · rw [parseAmount_minus50]
    norm_num [normalizeExpenseAmount, jlt, jabs]
    decide

/-- Witness for C5 at concrete inputs: a record whose expense amount is the
string "-50" and the two sign cases. -/
theorem c5_amount_normalization_witness :
    importExpectedAmount { expectedAmount := some (JsVal.str "-50") } =
      Except.ok (parseAmount "-50") ∧
    normalizeExpenseAmount "expense" (some (-3)) = some 3 ∧
    normalizeExpenseAmount "expense" (some 3) = some 3 := by
  refine ⟨(c5_amount_normalization 0 none "-50" _).1 rfl, ?_, ?_⟩
  · have h := (c5_amount_normalization (-3) none "" {}).2.2.1 (by norm_num)
    simpa using h
  · exact (c5_amount_normalization 3 none "" {}).2.2.2.1 (by norm_num)

/-- C8: `parseMonthString` accepts full and abbreviated month-name formats,
`yyyy-MM` and `MM/yyyy`, falls back to a two-token split that finds the
4-digit year and reads the other token as a month name or number, and returns
null on total failure; the importer maps a null parse (or an absent month
field) to the batch default month and a successful parse to the parsed
month. -/
theorem c8_parse_month_string (year month : Int) (r : ImportRecord) (s : String) (ym : YM) :
    parseMonthString "March 2024" = some ⟨2024, 3⟩ ∧
    parseMonthString "Jan 2023" = some ⟨2023, 1⟩ ∧
    parseMonthString "2023-01" = some ⟨2023, 1⟩ ∧
    parseMonthString "03/2024" = some ⟨2024, 3⟩ ∧
    parseMonthString "June-2024" = some ⟨2024, 6⟩ ∧
    parseMonthString "not a month" = none ∧
    parseMonthString "" = none ∧
    (r.month = none → importTarget year month r = (year, month)) ∧
    (r.month = some s → parseMonthString s = none →
        importTarget year month r = (year, month)) ∧
    (r.month = some s → parseMonthString s = some ym →
        importTarget year month r = (ym.year, ym.month)) := by
  refine ⟨by decide, by decide, by decide, by decide, by decide, by decide, by decide,
    ?_, ?_, ?_⟩
  · intro h
    simp [importTarget, h]
  · intro h hn
    by_cases hs : s = ""
    · simp [importTarget, h, hs]
    · simp [importTarget, h, hs, hn]
  · intro h hp
    by_cases hs : s = ""
    · subst hs
      simp [parseMonthString] at hp
    · simp [importTarget, h, hs, hp]

/-- Witness for C8: the importer's target-month selection at concrete
records. -/
theorem c8_parse_month_string_witness :
    importTarget 2024 7 { month := some "not a month" } = (2024, 7) ∧
    importTarget 2024 7 { month := some "March 2024" } = (2024, 3) ∧
    importTarget 2024 7 {} = (2024, 7) := by
  obtain ⟨-, -, -, -, -, h6, -, h8, h9, h10⟩ :=
    c8_parse_month_string 2024 7 { month := some "not a month" } "not a month" ⟨2024, 3⟩
  obtain ⟨h1, -, -, -, -, -, -, -, -, h10b⟩ :=
    c8_parse_month_string 2024 7 { month := some "March 2024" } "March 2024" ⟨2024, 3⟩
  obtain ⟨-, -, -, -, -, -, -, h8c, -, -⟩ :=
    c8_parse_month_string 2024 7 ({} : ImportRecord) "" ⟨2024, 3⟩
  exact ⟨h9 rfl h6, h10b rfl h1, h8c rfl⟩

/-- The projection of an item row onto the fields the carry-forward claims
speak about: month link, name, category, expected amount, due date, actual
amount, paid flag (the serial id is left out). -/
def itemProj (i : BudgetItem) :
    Nat × String × Nat × JsNum × Option DateVal × Option JsNum × Option Bool :=
  (i.budgetMonthId, i.name, i.categoryId, i.expectedAmount, i.dueDate, i.actualAmount, i.isPaid)

/-- The projection a carried-forward copy of an item must satisfy: relinked to
the new month, same name/category/expected/due date, actual amount reset to
0, paid flag reset to false. -/
def carryProj (newMonthId : Nat) (i : BudgetItem) :
    Nat × String × Nat × JsNum × Option DateVal × Option JsNum × Option Bool :=
  (newMonthId, i.name, i.categoryId, i.expectedAmount, i.dueDate, some (some 0), some false)

/-- Projected form of the carry-forward batch: the ids assigned during the
batch insert drop out. -/
theorem carry_enumFrom_proj (newMonthId baseId : Nat) :
    ∀ (l : List BudgetItem) (n : Nat),
      ((l.enumFrom n).map (carryItem newMonthId baseId)).map itemProj =
        l.map (carryProj newMonthId)
  | [], _ => rfl
  | i :: l, n => by
    simp only [List.enumFrom, List.map_cons]
    rw [carry_enumFrom_proj newMonthId baseId l (n + 1)]
    rfl

/-- No month is its own chronological predecessor. -/
theorem prevMonthOf_ne (month : Int) : prevMonthOf month ≠ month := by
  unfold prevMonthOf
  by_cases h : month = 1
  · simp [h]
  · simp [h]

/-- The freshly inserted month row never matches the preceding-month filter of
`createMonth`. -/
theorem prevMonthMatches_self_false (year month : Int) (b : BudgetMonth)
    (hm : b.month = month) :
    prevMonthMatches year month b = false := by
  have h2 : (b.month == prevMonthOf month) = false := by
    simp only [beq_eq_false_iff_ne, ne_eq, hm]
    exact fun h => prevMonthOf_ne month h.symm
  simp [prevMonthMatches, h2]

/-- The preceding-month lookup of `createMonth` runs after the new row is
inserted, but the new row can never match, so it is equivalent to a lookup on
the original table. -/
theorem find_prev_append (st : Store) (year month : Int) (nm : BudgetMonth)
    (hm : nm.month = month) :
    (st.budgetMonths ++ [nm]).find? (prevMonthMatches year month) =
      st.budgetMonths.find? (prevMonthMatches year month) := by
  rw [List.find?_append]
  have h1 : [nm].find? (prevMonthMatches year month) = none := by
    simp [List.find?, prevMonthMatches_self_false year month nm hm]
  rw [h1]
  exact Option.or_none

/-- C2: whenever `createMonth` creates a month and the preceding-month lookup
(on the rolled-back year/month pair) finds a row, every item of that row's
month is copied into the new month with the same name, category, expected
amount and due date, actual amount reset to 0 and paid flag reset to false;
when the lookup finds nothing, the new month gets no items. -/
theorem c2_carry_forward (st : Store) (year month : Int) (uid : Option Nat) :
    (∀ pm, st.budgetMonths.find? (prevMonthMatches year month) = some pm →
        (createMonth st year month uid).1.budgetItems.map itemProj =
          st.budgetItems.map itemProj ++
            (st.budgetItems.filter (fun i => i.budgetMonthId == pm.id)).map
              (carryProj (createMonth st year month uid).2.id)) ∧
    (st.budgetMonths.find? (prevMonthMatches year month) = none →
        (createMonth st year month uid).1.budgetItems = st.budgetItems) := by
  constructor
  · intro pm hpm
    simp only [createMonth]
    rw [find_prev_append st year month
      { id := st.nextMonthId, userId := uid, year := year, month := month,
        isActive := true } rfl, hpm]
    simp only [List.map_append, List.enum]
    rw [carry_enumFrom_proj]
  · intro hpm
    simp only [createMonth]
    rw [find_prev_append st year month
      { id := st.nextMonthId, userId := uid, year := year, month := month,
        isActive := true } rfl, hpm]

/-- Witness data for the carry-forward claims: a store holding March 2024
with a single expense item. -/
def c2wPrevMonth : BudgetMonth :=
  { id := 1, userId := none, year := 2024, month := 3, isActive := true }

/-- Witness item in the March 2024 month. -/
def c2wItem : BudgetItem :=
  { id := 1, budgetMonthId := 1, categoryId := 1, name := "Rent",
    expectedAmount := some 100, actualAmount := some (some 80), dueDate := none,
    isPaid := some true }

/-- Witness store for C2. -/
def c2wSt : Store :=
  { categories := [{ id := 1, name := "housing", displayName := "Housing",
                     type := "expense", sortOrder := 100 }],
    budgetMonths := [c2wPrevMonth], budgetItems := [c2wItem],
    nextCategoryId := 2, nextMonthId := 2, nextItemId := 2 }

/-- Witness for C2: creating April 2024 copies the Rent item forward with
expected 100, actual reset to 0 and paid flag reset to false. -/
theorem c2_carry_forward_witness :
    (createMonth c2wSt 2024 4 none).1.budgetItems.map itemProj =
      c2wSt.budgetItems.map itemProj ++
        [((createMonth c2wSt 2024 4 none).2.id, "Rent", 1, (some 100 : JsNum),
          (none : Option DateVal), (some (some 0) : Option JsNum),
          (some false : Option Bool))] := by
  have h := (c2_carry_forward c2wSt 2024 4 none).1 c2wPrevMonth (by decide)
  simpa [c2wSt, c2wItem, carryProj] using h

/-- C9: the preceding-month lookup of `createMonth` filters only on year and
month — the filter is insensitive to the row's `userId` — so the newly
created month is seeded from whichever matching row the store returns first,
whatever its owner and whatever the owner of the month being created. -/
theorem c9_prev_lookup_ignores_owner (st : Store) (year month : Int)
    (uid : Option Nat) (pm : BudgetMonth)
    (hpm : st.budgetMonths.find? (prevMonthMatches year month) = some pm) :
    (∀ b : BudgetMonth, ∀ u : Option Nat,
        prevMonthMatches year month b = prevMonthMatches year month { b with userId := u }) ∧
    (createMonth st year month uid).1.budgetItems.map itemProj =
      st.budgetItems.map itemProj ++
        (st.budgetItems.filter (fun i => i.budgetMonthId == pm.id)).map
          (carryProj (createMonth st year month uid).2.id) := by
  constructor
  · intro b u
    rfl
  · simp only [createMonth]
    rw [find_prev_append st year month
      { id := st.nextMonthId, userId := uid, year := year, month := month,
        isActive := true } rfl, hpm]
    simp only [List.map_append, List.enum]
    rw [carry_enumFrom_proj]

/-- Witness data for C9: the only March 2024 row belongs to user 2. -/
def c9wPrevMonth : BudgetMonth :=
  { id := 1, userId := some 2, year := 2024, month := 3, isActive := true }

/-- Witness item living in user 2's March 2024 month. -/
def c9wItem : BudgetItem :=
  { id := 1, budgetMonthId := 1, categoryId := 1, name := "Salary",
    expectedAmount := some 5000, actualAmount := some (some 5000), dueDate := none,
    isPaid := some true }

/-- Witness store for C9. -/
def c9wSt : Store :=
  { categories := [{ id := 1, name := "revenue", displayName := "Revenue",
                     type := "revenue", sortOrder := 0 }],
    budgetMonths := [c9wPrevMonth], budgetItems := [c9wItem],
    nextCategoryId := 2, nextMonthId := 2, nextItemId := 2 }

/-- Witness for C9: creating April 2024 on behalf of user 1 copies user 2's
March item into the new month. -/
theorem c9_prev_lookup_ignores_owner_witness :
    (createMonth c9wSt 2024 4 (some 1)).1.budgetItems.map itemProj =
      c9wSt.budgetItems.map itemProj ++
        [((createMonth c9wSt 2024 4 (some 1)).2.id, "Salary", 1, (some 5000 : JsNum),
          (none : Option DateVal), (some (some 0) : Option JsNum),
          (some false : Option Bool))] := by
  have h := (c9_prev_lookup_ignores_owner c9wSt 2024 4 (some 1) c9wPrevMonth (by decide)).2
  simpa [c9wSt, c9wItem, carryProj] using h

/-- C3: in every month view produced by `getOrCreateMonth`, each item's
variance is its actual amount minus its expected amount, each expense
category's variance is its actual total minus its expected total, and each
headline variance (revenue, expenses, net income) is the corresponding actual
total minus the corresponding expected total, the expected and actual sides
having been aggregated independently. -/
theorem c3_variance_identity (st : Store) (year month : Int) (uid : Option Nat) :
    (∀ it ∈ (monthViewOf st year month uid).revenueItems,
        it.variance = calculateVariance it.actualAmount it.expectedAmount) ∧
    (∀ ec ∈ (monthViewOf st year month uid).expenseCategories,
        (∀ it ∈ ec.items, it.variance = calculateVariance it.actualAmount it.expectedAmount) ∧
        ec.totals.variance = calculateVariance ec.totals.actualTotal ec.totals.expectedTotal) ∧
    (monthViewOf st year month uid).totals.revenueVariance =
      calculateVariance (monthViewOf st year month uid).totals.actualTotalRevenue
        (monthViewOf st year month uid).totals.expectedTotalRevenue ∧
    (monthViewOf st year month uid).totals.expensesVariance =
      calculateVariance (monthViewOf st year month uid).totals.actualTotalExpenses
        (monthViewOf st year month uid).totals.expectedTotalExpenses ∧
    (monthViewOf st year month uid).totals.netIncomeVariance =
      calculateVariance (monthViewOf st year month uid).totals.actualNetIncome
        (monthViewOf st year month uid).totals.expectedNetIncome := by
  refine ⟨?_, ?_, rfl, rfl, rfl⟩
  · intro it hit
    simp only [monthViewOf, getOrCreateMonth, computeMonthView, List.mem_map] at hit
    obtain ⟨i, hi, rfl⟩ := hit
    rfl
  · intro ec hec
    simp only [monthViewOf, getOrCreateMonth, computeMonthView, List.mem_map] at hec
    obtain ⟨c, hc, rfl⟩ := hec
    refine ⟨?_, rfl⟩
    intro it hit
    simp only [expenseEntry, List.mem_map] at hit
    obtain ⟨i, hi, rfl⟩ := hit
    rfl

/-- Witness store for C3 and C10: one revenue category with one item, one
expense category with one item, and one empty expense category, all in March
2024. -/
def c3wSt : Store :=
  { categories :=
      [{ id := 1, name := "revenue", displayName := "Revenue", type := "revenue", sortOrder := 0 },
       { id := 2, name := "housing", displayName := "Housing", type := "expense", sortOrder := 10 },
       { id := 3, name := "other", displayName := "Other", type := "expense", sortOrder := 20 }],
    budgetMonths := [{ id := 1, userId := none, year := 2024, month := 3, isActive := true }],
    budgetItems :=
      [{ id := 1, budgetMonthId := 1, categoryId := 1, name := "Salary",
         expectedAmount := some 100, actualAmount := some (some 80), dueDate := none,
         isPaid := some false },
       { id := 2, budgetMonthId := 1, categoryId := 2, name := "Rent",
         expectedAmount := some 50, actualAmount := some (some 50), dueDate := none,
         isPaid := some true }],
    nextCategoryId := 4, nextMonthId := 2, nextItemId := 3 }

/-- The revenue item of the witness store. -/
def c3wItem : BudgetItem :=
  { id := 1, budgetMonthId := 1, categoryId := 1, name := "Salary",
    expectedAmount := some 100, actualAmount := some (some 80), dueDate := none,
    isPaid := some false }

/-- Witness for C3: the Salary item of the concrete March 2024 view satisfies
the variance identity. -/
theorem c3_variance_identity_witness :
    (mkItemView "revenue" c3wItem).variance =
      calculateVariance (mkItemView "revenue" c3wItem).actualAmount
        (mkItemView "revenue" c3wItem).expectedAmount := by
  apply (c3_variance_identity c3wSt 2024 3 none).1
  show mkItemView "revenue" c3wItem ∈ (monthViewOf c3wSt 2024 3 none).revenueItems
  have h : (monthViewOf c3wSt 2024 3 none).revenueItems = [mkItemView "revenue" c3wItem] := rfl
  rw [h]
  exact List.mem_singleton.mpr rfl

/-- `createMonth` never touches the categories table. -/
theorem createMonth_categories (st : Store) (year month : Int) (uid : Option Nat) :
    (createMonth st year month uid).1.categories = st.categories := by
  simp only [createMonth]
  split <;> rfl

/-- Month resolution never touches the categories table. -/
theorem resolveMonthRow_categories (st : Store) (year month : Int) (uid : Option Nat) :
    (resolveMonthRow st year month uid).1.categories = st.categories := by
  simp only [resolveMonthRow]
  split
  · rfl
  · exact createMonth_categories st year month none

/-- C10: the month view returned by `getOrCreateMonth` has exactly one
expense-category entry per expense-type category row of the store, listed in
ascending `sortOrder`; a category with no items in the month still gets an
entry, with an empty item list and zero totals; and revenue items are
returned as one flat list (each tagged with the literal label "revenue"), not
subdivided by category. -/
theorem c10_view_structure (st : Store) (year month : Int) (uid : Option Nat) :
    (resolvedStoreOf st year month uid).categories = st.categories ∧
    (monthViewOf st year month uid).expenseCategories.map (fun ec => ec.category) =
      ((sortedCategories st).filter (fun c => c.type == "expense")).map (fun c => c.name) ∧
    List.Pairwise (fun a b => a ≤ b)
      (((sortedCategories st).filter (fun c => c.type == "expense")).map
        (fun c => c.sortOrder)) ∧
    (∀ ec ∈ (monthViewOf st year month uid).expenseCategories,
        ec.items = [] →
          ec.totals.expectedTotal = some 0 ∧ ec.totals.actualTotal = some 0 ∧
            ec.totals.variance = some 0) ∧
    (∀ c ∈ st.categories, c.type = "expense" →
        (∀ i ∈ monthItemsOf (resolvedStoreOf st year month uid)
            (resolvedRowOf st year month uid), i.categoryId ≠ c.id) →
        ∃ ec ∈ (monthViewOf st year month uid).expenseCategories,
          ec.category = c.name ∧ ec.displayName = c.displayName ∧ ec.items = [] ∧
            ec.totals.expectedTotal = some 0 ∧ ec.totals.actualTotal = some 0 ∧
            ec.totals.variance = some 0) ∧
    (monthViewOf st year month uid).revenueItems =
      ((monthItemsOf (resolvedStoreOf st year month uid)
          (resolvedRowOf st year month uid)).filter
        (fun i => (itemCategory (resolvedStoreOf st year month uid) i).any
          (fun c => c.type == "revenue"))).map (mkItemView "revenue") ∧
    (∀ it ∈ (monthViewOf st year month uid).revenueItems, it.category = "revenue") := by
  have hcat : (resolvedStoreOf st year month uid).categories = st.categories :=
    resolveMonthRow_categories st year month uid
  have hsorted : sortedCategories (resolvedStoreOf st year month uid) = sortedCategories st := by
    unfold sortedCategories
    rw [hcat]
  refine ⟨hcat, ?_, ?_, ?_, ?_, rfl, ?_⟩
  · show (((sortedCategories (resolvedStoreOf st year month uid)).filter
        (fun c => c.type == "expense")).map
          (expenseEntry (monthItemsOf (resolvedStoreOf st year month uid)
            (resolvedRowOf st year month uid)))).map (fun ec => ec.category) =
      ((sortedCategories st).filter (fun c => c.type == "expense")).map (fun c => c.name)
    rw [hsorted, List.map_map]
    rfl
  · haveI : IsTrans Category (fun a b => a.sortOrder ≤ b.sortOrder) :=
      ⟨fun _ _ _ hab hbc => le_trans hab hbc⟩
    haveI : IsTotal Category (fun a b => a.sortOrder ≤ b.sortOrder) :=
      ⟨fun a b => le_total _ _⟩
    have hs : List.Pairwise (fun a b : Category => a.sortOrder ≤ b.sortOrder)
        (sortedCategories st) :=
      List.sorted_insertionSort (fun a b : Category => a.sortOrder ≤ b.sortOrder) st.categories
    exact (hs.filter _).map _ (fun a b h => h)
  · intro ec hec hempty
    simp only [monthViewOf, getOrCreateMonth, computeMonthView, List.mem_map] at hec
    obtain ⟨c, hc, rfl⟩ := hec
    simp only [expenseEntry] at hempty ⊢
    rw [hempty]
    refine ⟨rfl, rfl, ?_⟩
    norm_num [calculateVariance, jsub, sumExpected, sumActual]
  · intro c hc htype hnone
    have hmem1 : c ∈ sortedCategories (resolvedStoreOf st year month uid) := by
      rw [hsorted]
      unfold sortedCategories
      exact ((List.perm_insertionSort (fun a b : Category => a.sortOrder ≤ b.sortOrder)
        st.categories).mem_iff).mpr hc
    have hmem2 : c ∈ (sortedCategories (resolvedStoreOf st year month uid)).filter
        (fun c => c.type == "expense") :=
      List.mem_filter.mpr ⟨hmem1, by simp [htype]⟩
    have hitems : (monthItemsOf (resolvedStoreOf st year month uid)
        (resolvedRowOf st year month uid)).filter (fun i => i.categoryId == c.id) = [] := by
      rw [List.filter_eq_nil_iff]
      intro i hi
      simp [hnone i hi]
    refine ⟨expenseEntry (monthItemsOf (resolvedStoreOf st year month uid)
      (resolvedRowOf st year month uid)) c, ?_, rfl, rfl, ?_, ?_, ?_, ?_⟩
    · show expenseEntry _ c ∈ (monthViewOf st year month uid).expenseCategories
      exact List.mem_map.mpr ⟨c, hmem2, rfl⟩
    · simp only [expenseEntry]
      rw [hitems]
      rfl
    · simp only [expenseEntry]
      rw [hitems]
      rfl
    · simp only [expenseEntry]
      rw [hitems]
      rfl
    · simp only [expenseEntry]
      rw [hitems]
      norm_num [calculateVariance, jsub, sumExpected, sumActual]
  · intro it hit
    simp only [monthViewOf, getOrCreateMonth, computeMonthView, List.mem_map] at hit
    obtain ⟨i, hi, rfl⟩ := hit
    rfl

/-- Packing a basic-latin code point into a Char and reading it back is the
identity. -/
theorem char_ofNat_toNat_lt (n : Nat) (h : n < 0xd800) :
    (Char.ofNat n).toNat = n := by
  have hv : n.isValidChar := Or.inl h
  rw [Char.ofNat, dif_pos hv]
  rfl

/-- Char equality is code-point equality. -/
theorem char_eq_iff_toNat (c d : Char) : c = d ↔ c.toNat = d.toNat := by
  constructor
  · intro h
    rw [h]
  · intro h
    apply Char.ext
    exact UInt32.ext h

/-- ASCII lower-casing is idempotent. -/
theorem char_toLower_idem (c : Char) : c.toLower.toLower = c.toLower := by
  unfold Char.toLower
  by_cases h : c.toNat ≥ 65 ∧ c.toNat ≤ 90
  · rw [if_pos h]
    have hval : (Char.ofNat (c.toNat + 32)).toNat = c.toNat + 32 :=
      char_ofNat_toNat_lt _ (by omega)
    rw [if_neg]
    rw [hval]
    omega
  · rw [if_neg h, if_neg h]

/-- Lower-casing does not change whether a character is whitespace. -/
theorem char_isWhitespace_toLower (c : Char) :
    c.toLower.isWhitespace = c.isWhitespace := by
  unfold Char.toLower
  by_cases h : c.toNat ≥ 65 ∧ c.toNat ≤ 90
  · rw [if_pos h]
    have hval : (Char.ofNat (c.toNat + 32)).toNat = c.toNat + 32 :=
      char_ofNat_toNat_lt _ (by omega)
    unfold Char.isWhitespace
    simp only [char_eq_iff_toNat, hval]
    have h32 : (' ' : Char).toNat = 32 := by decide
    have h9 : ('\t' : Char).toNat = 9 := by decide
    have h13 : ('\r' : Char).toNat = 13 := by decide
    have h10 : ('\n' : Char).toNat = 10 := by decide
    rw [h32, h9, h13, h10]
    have o1 : ¬(c.toNat + 32 = 32) := by omega
    have o2 : ¬(c.toNat + 32 = 9) := by omega
    have o3 : ¬(c.toNat + 32 = 13) := by omega
    have o4 : ¬(c.toNat + 32 = 10) := by omega
    have o5 : ¬(c.toNat = 32) := by omega
    have o6 : ¬(c.toNat = 9) := by omega
    have o7 : ¬(c.toNat = 13) := by omega
    have o8 : ¬(c.toNat = 10) := by omega
    simp [o1, o2, o3, o4, o5, o6, o7, o8]
  · rw [if_neg h]

/-- Lower-casing commutes with dropping leading whitespace. -/
theorem dropWhile_ws_map_toLower (l : List Char) :
    (l.map Char.toLower).dropWhile Char.isWhitespace =
      (l.dropWhile Char.isWhitespace).map Char.toLower := by
  induction l with
  | nil => rfl
  | cons c l ih =>
    simp only [List.map_cons, List.dropWhile_cons, char_isWhitespace_toLower]
    by_cases h : c.isWhitespace
    · simp [h, ih]
    · simp [h]

/-- Lower-casing a string commutes with trimming it. -/
theorem jsToLower_jsTrim_comm (s : String) :
    jsToLower (jsTrim s) = jsTrim (jsToLower s) := by
  unfold jsToLower jsTrim
  congr 1
  show ((((s.data.dropWhile Char.isWhitespace).reverse.dropWhile
      Char.isWhitespace).reverse).map Char.toLower) =
    ((((s.data.map Char.toLower).dropWhile Char.isWhitespace).reverse.dropWhile
      Char.isWhitespace).reverse)
  rw [dropWhile_ws_map_toLower, ← List.map_reverse, dropWhile_ws_map_toLower,
    ← List.map_reverse]

/-- Lower-casing a string is idempotent. -/
theorem jsToLower_idem (s : String) : jsToLower (jsToLower s) = jsToLower s := by
  unfold jsToLower
  congr 1
  show (s.data.map Char.toLower).map Char.toLower = s.data.map Char.toLower
  rw [List.map_map]
  exact List.map_congr_left fun c _ => char_toLower_idem c

/-- The importer's effective category key is already lower-case. -/
theorem effectiveCategoryName_lower (r : ImportRecord) :
    jsToLower (effectiveCategoryName r) = effectiveCategoryName r := by
  simp only [effectiveCategoryName]
  by_cases h : (jsTrim (jsToLower (r.category.getD "")) == "") = true
  · rw [if_pos h]
    by_cases h2 : (effectiveCategoryType r == "revenue") = true
    · rw [if_pos h2]
      decide
    · rw [if_neg h2]
      decide
  · rw [if_neg h]
    rw [jsToLower_jsTrim_comm, jsToLower_idem]

/-- A category row carrying the effective key verbatim is matched by the
importer's case-insensitive lookup. -/
theorem categoryMatches_self (r : ImportRecord) (c : Category)
    (hn : c.name = effectiveCategoryName r) (ht : c.type = effectiveCategoryType r) :
    categoryMatches (effectiveCategoryName r) (effectiveCategoryType r) c = true := by
  unfold categoryMatches
  rw [hn, ht, effectiveCategoryName_lower]
  simp

/-- Resolving a second record with the same effective (name, type) against the
state left by a first resolution finds the first resolution's category and
creates nothing. -/
theorem resolveImportCategory_stable (st : Store) (cats : List Category)
    (r r2 : ImportRecord)
    (hn : effectiveCategoryName r2 = effectiveCategoryName r)
    (ht : effectiveCategoryType r2 = effectiveCategoryType r) :
    resolveImportCategory (resolveImportCategory st cats r).1
        (resolveImportCategory st cats r).2.1 r2 =
      ((resolveImportCategory st cats r).1, (resolveImportCategory st cats r).2.1,
        false, (resolveImportCategory st cats r).2.2.2) := by
  cases hfind : cats.find? (categoryMatches (effectiveCategoryName r)
      (effectiveCategoryType r)) with
  | some c =>
    have h1 : resolveImportCategory st cats r = (st, cats, false, c) := by
      simp only [resolveImportCategory, hfind]
    rw [h1]
    simp only [resolveImportCategory, hn, ht, hfind]
  | none =>
    have h1 : resolveImportCategory st cats r =
        ({ st with categories := st.categories ++ [newCategoryOf st r],
                   nextCategoryId := st.nextCategoryId + 1 },
         cats ++ [newCategoryOf st r], true, newCategoryOf st r) := by
      simp only [resolveImportCategory, hfind]
    rw [h1]
    simp only [resolveImportCategory, hn, ht]
    rw [List.find?_append, hfind]
    have hm : categoryMatches (effectiveCategoryName r) (effectiveCategoryType r)
        (newCategoryOf st r) = true :=
      categoryMatches_self r _ rfl rfl
    simp [List.find?, hm]

/-- C7: the importer matches a record's category case-insensitively and
exactly on the (name, type) pair; on a miss it creates a category whose
displayName splits the raw name on underscore/dash/whitespace and title-cases
each piece (so "side_hustle" of type revenue gives "Side Hustle"), whose
sortOrder is 0 for revenue and 100 for expense, and which is appended to the
in-memory candidate list so a later record of the batch with the same
effective (name, type) reuses it instead of creating a duplicate. -/
theorem c7_category_resolution (st : Store) (cats : List Category) (r r2 : ImportRecord) :
    (∀ c, cats.find? (categoryMatches (effectiveCategoryName r)
        (effectiveCategoryType r)) = some c →
      jsToLower c.name = effectiveCategoryName r ∧ c.type = effectiveCategoryType r ∧
        resolveImportCategory st cats r = (st, cats, false, c)) ∧
    (cats.find? (categoryMatches (effectiveCategoryName r)
        (effectiveCategoryType r)) = none →
      resolveImportCategory st cats r =
        ({ st with categories := st.categories ++ [newCategoryOf st r],
                   nextCategoryId := st.nextCategoryId + 1 },
         cats ++ [newCategoryOf st r], true, newCategoryOf st r) ∧
      (newCategoryOf st r).name = effectiveCategoryName r ∧
      (newCategoryOf st r).displayName = deriveDisplayName (effectiveCategoryName r) ∧
      (newCategoryOf st r).type = effectiveCategoryType r ∧
      (newCategoryOf st r).sortOrder =
        (if effectiveCategoryType r == "revenue" then 0 else 100)) ∧
    (effectiveCategoryName r2 = effectiveCategoryName r →
        effectiveCategoryType r2 = effectiveCategoryType r →
        resolveImportCategory (resolveImportCategory st cats r).1
            (resolveImportCategory st cats r).2.1 r2 =
          ((resolveImportCategory st cats r).1, (resolveImportCategory st cats r).2.1,
            false, (resolveImportCategory st cats r).2.2.2)) ∧
    deriveDisplayName "side_hustle" = "Side Hustle" ∧
    effectiveCategoryName { category := some "side_hustle", type := some "revenue" } =
      "side_hustle" ∧
    effectiveCategoryType { category := some "side_hustle", type := some "revenue" } =
      "revenue" := by
  refine ⟨?_, ?_, fun hn ht => resolveImportCategory_stable st cats r r2 hn ht,
    by decide, by decide, by decide⟩
  · intro c hc
    have hp := List.find?_some hc
    simp only [categoryMatches, Bool.and_eq_true, beq_iff_eq] at hp
    refine ⟨hp.1, hp.2, ?_⟩
    simp only [resolveImportCategory, hc]
  · intro hc
    refine ⟨?_, rfl, rfl, rfl, rfl⟩
    simp only [resolveImportCategory, hc]

/-- Witness record for C7. -/
def c7wRec : ImportRecord := { category := some "side_hustle", type := some "revenue" }

/-- Witness for C7: resolving "side_hustle"/revenue against an empty candidate
list creates the "Side Hustle" category, and resolving it again reuses it
without creating another. -/
theorem c7_category_resolution_witness :
    (newCategoryOf emptyStore c7wRec).displayName = "Side Hustle" ∧
    resolveImportCategory (resolveImportCategory emptyStore [] c7wRec).1
        (resolveImportCategory emptyStore [] c7wRec).2.1 c7wRec =
      ((resolveImportCategory emptyStore [] c7wRec).1,
       (resolveImportCategory emptyStore [] c7wRec).2.1, false,
       (resolveImportCategory emptyStore [] c7wRec).2.2.2) := by
  obtain ⟨h1, h2, h3, h4, h5, h6⟩ := c7_category_resolution emptyStore [] c7wRec c7wRec
  refine ⟨?_, h3 rfl rfl⟩
  have h2i := h2 rfl
  rw [h2i.2.2.1]
  show deriveDisplayName (effectiveCategoryName
    { category := some "side_hustle", type := some "revenue" }) = "Side Hustle"
  rw [h5]
  exact h4

/-- The importer's month-resolution step never touches the items table. -/
theorem resolveImportMonth_budgetItems (st : Store)
    (cache : List (String × BudgetMonth)) (ty tm : Int) :
    (resolveImportMonth st cache ty tm).1.budgetItems = st.budgetItems := by
  simp only [resolveImportMonth]
  split
  · rfl
  · split <;> rfl

/-- The importer's category-resolution step never touches the items table. -/
theorem resolveImportCategory_budgetItems (st : Store) (cats : List Category)
    (r : ImportRecord) :
    (resolveImportCategory st cats r).1.budgetItems = st.budgetItems := by
  simp only [resolveImportCategory]
  split <;> rfl

/-- Per-record bookkeeping: a record processed without exception appends
exactly one item row; a record that throws appends none. -/
theorem processImportRecord_items (year month : Int) (s : ImpState) (r : ImportRecord) :
    ((processImportRecord year month s r).2.2.2 = none →
        (processImportRecord year month s r).1.st.budgetItems.length =
          s.st.budgetItems.length + 1) ∧
    ((processImportRecord year month s r).2.2.2 ≠ none →
        (processImportRecord year month s r).1.st.budgetItems = s.st.budgetItems) := by
  simp only [processImportRecord]
  split
  · constructor
    · intro h
      simp at h
    · intro _
      show (resolveImportCategory (resolveImportMonth s.st s.cache _ _).1 s.cats
        r).1.budgetItems = s.st.budgetItems
      rw [resolveImportCategory_budgetItems, resolveImportMonth_budgetItems]
  · split
    · constructor
      · intro h
        simp at h
      · intro _
        show (resolveImportCategory (resolveImportMonth s.st s.cache _ _).1 s.cats
          r).1.budgetItems = s.st.budgetItems
        rw [resolveImportCategory_budgetItems, resolveImportMonth_budgetItems]
    · constructor
      · intro _
        show ((resolveImportCategory (resolveImportMonth s.st s.cache _ _).1 s.cats
            r).1.budgetItems ++ _).length = s.st.budgetItems.length + 1
        rw [List.length_append, resolveImportCategory_budgetItems,
          resolveImportMonth_budgetItems]
        rfl
      · intro h
        simp at h

/-- One fold step of the importer: counters move by exactly one record, the
error list grows only on failure (by the record's message), and the items
table grows only on success. -/
theorem importStep_spec (year month : Int) (acc : ImpState × ImportResults)
    (r : ImportRecord) :
    (importStep year month acc r).2.success + (importStep year month acc r).2.failed
        = acc.2.success + acc.2.failed + 1 ∧
    (importStep year month acc r).2.errors.length + acc.2.failed
        = acc.2.errors.length + (importStep year month acc r).2.failed ∧
    (importStep year month acc r).1.st.budgetItems.length + acc.2.success
        = acc.1.st.budgetItems.length + (importStep year month acc r).2.success ∧
    (∀ e ∈ (importStep year month acc r).2.errors,
        e ∈ acc.2.errors ∨ ∃ msg, e = importErrorMsg r msg) := by
  have hitems := processImportRecord_items year month acc.1 r
  simp only [importStep]
  cases h : (processImportRecord year month acc.1 r).2.2.2 with
  | none =>
    rw [h] at hitems
    dsimp only
    refine ⟨by omega, by omega, ?_, ?_⟩
    · have := hitems.1 rfl
      simp only [this]
      omega
    · intro e he
      exact Or.inl he
  | some msg =>
    rw [h] at hitems
    dsimp only
    refine ⟨by omega, ?_, ?_, ?_⟩
    · simp only [List.length_append, List.length_cons, List.length_nil]
      try omega
    · have := hitems.2 (by simp)
      simp only [this]
      try omega
    · intro e he
      rcases List.mem_append.mp he with h1 | h1
      · exact Or.inl h1
      · right
        exact ⟨msg, List.mem_singleton.mp h1⟩

/-- Loop invariant of the import fold: counts add up to the number of records,
the error list tracks the failure count, the items table tracks the success
count, and every error message comes from one of the records. -/
theorem importFold_spec (year month : Int) :
    ∀ (data : List ImportRecord) (acc : ImpState × ImportResults),
      (data.foldl (importStep year month) acc).2.success +
          (data.foldl (importStep year month) acc).2.failed =
        acc.2.success + acc.2.failed + data.length ∧
      (data.foldl (importStep year month) acc).2.errors.length + acc.2.failed =
        acc.2.errors.length + (data.foldl (importStep year month) acc).2.failed ∧
      (data.foldl (importStep year month) acc).1.st.budgetItems.length + acc.2.success =
        acc.1.st.budgetItems.length + (data.foldl (importStep year month) acc).2.success ∧
      (∀ e ∈ (data.foldl (importStep year month) acc).2.errors,
          e ∈ acc.2.errors ∨ ∃ rr ∈ data, ∃ msg, e = importErrorMsg rr msg)
  | [], acc => by
    refine ⟨?_, ?_, ?_, ?_⟩
    · simp only [List.foldl_nil, List.length_nil]
      try omega
    · simp only [List.foldl_nil]
      try omega
    · simp only [List.foldl_nil]
      try omega
    · intro e he
      simp only [List.foldl_nil] at he
      exact Or.inl he
  | r :: data, acc => by
    have hstep := importStep_spec year month acc r
    have hrec := importFold_spec year month data (importStep year month acc r)
    simp only [List.foldl_cons, List.length_cons]
    refine ⟨by omega, by omega, by omega, ?_⟩
    intro e he
    rcases hrec.2.2.2 e he with h1 | h1
    · rcases hstep.2.2.2 e h1 with h2 | h2
      · exact Or.inl h2
      · right
        obtain ⟨msg, hmsg⟩ := h2
        exact ⟨r, List.mem_cons_self r data, msg, hmsg⟩
    · right
      obtain ⟨rr, hrr, msg, hmsg⟩ := h1
      exact ⟨rr, List.mem_cons_of_mem r hrr, msg, hmsg⟩

/-- C6: `importBudgetData` processes records independently and never throws
for a per-record problem: every record either succeeds (its item row is
persisted) or fails (its failed count is bumped and a message naming the
record — or "Unknown" — is appended), so success + failed equals the batch
size, the error list has exactly one entry per failed record, and the items
table grows by exactly the success count. -/
theorem c6_import_partial_failure (st : Store) (year month : Int)
    (data : List ImportRecord) :
    (importBudgetData st year month data).2.success +
        (importBudgetData st year month data).2.failed = data.length ∧
    (importBudgetData st year month data).2.errors.length =
      (importBudgetData st year month data).2.failed ∧
    (importBudgetData st year month data).1.budgetItems.length =
      st.budgetItems.length + (importBudgetData st year month data).2.success ∧
    (∀ e ∈ (importBudgetData st year month data).2.errors,
        ∃ r ∈ data, ∃ msg, e = importErrorMsg r msg) := by
  obtain ⟨h1, h2, h3, h4⟩ :=
    importFold_spec year month data (⟨st, st.categories, []⟩, ⟨0, 0, 0, 0, []⟩)
  simp only [importBudgetData]
  refine ⟨?_, ?_, ?_, ?_⟩
  · simp only [List.length_nil] at h1
    try omega
  · simp only [List.length_nil] at h2
    try omega
  · simp only [List.length_nil] at h3
    try omega
  · intro e he
    rcases h4 e he with hin | hin
    · exact absurd hin (List.not_mem_nil e)
    · exact hin

/-- Witness record that imports cleanly. -/
def c6wGood : ImportRecord :=
  { name := some "Coffee", category := some "food", amount := some (JsVal.str "12") }

/-- Witness record whose expected amount is JS null: `null.toString()` throws
inside the per-record try block. -/
def c6wBad : ImportRecord :=
  { name := some "Broken", expectedAmount := some JsVal.nullv }

/-- Witness for C6: a batch with one good and one throwing record reports one
success and one failure, and the error message names the failing record. -/
theorem c6_import_partial_failure_witness :
    (importBudgetData emptyStore 2024 5 [c6wGood, c6wBad]).2.success +
        (importBudgetData emptyStore 2024 5 [c6wGood, c6wBad]).2.failed = 2 ∧
    ∃ r ∈ [c6wGood, c6wBad], ∃ msg,
      importErrorMsg c6wBad "TypeError: Cannot read properties of null" =
        importErrorMsg r msg := by
  refine ⟨(c6_import_partial_failure emptyStore 2024 5 [c6wGood, c6wBad]).1, ?_⟩
  apply (c6_import_partial_failure emptyStore 2024 5 [c6wGood, c6wBad]).2.2.2
  show importErrorMsg c6wBad "TypeError: Cannot read properties of null" ∈
    (importBudgetData emptyStore 2024 5 [c6wGood, c6wBad]).2.errors
  decide

/-- Witness for C10: in the concrete March 2024 view, the item-less expense
category "other" still gets an entry, with an empty item list and zero
totals. -/
theorem c10_view_structure_witness :
    ∃ ec ∈ (monthViewOf c3wSt 2024 3 none).expenseCategories,
      ec.category = "other" ∧ ec.displayName = "Other" ∧ ec.items = [] ∧
        ec.totals.expectedTotal = some 0 ∧ ec.totals.actualTotal = some 0 ∧
        ec.totals.variance = some 0 :=
  (c10_view_structure c3wSt 2024 3 none).2.2.2.2.1
    { id := 3, name := "other", displayName := "Other", type := "expense", sortOrder := 20 }
    (by decide) rfl (by decide)
